import Mathlib

/-!
Shallow embedding of gprofiler's system-wide sampling orchestration
(`gprofiler/profilers/perf.py`) and NodeJS live-attach protocol
(`gprofiler/profilers/node.py`), with theorems settling the spec claims.

External effects (subprocess launches, signals, filesystem waits, HTTP and
websocket traffic) are modelled as explicit event traces; the environment of
each operation (whether a file appeared, what the debug endpoint answered,
and so on) is passed in as explicit data, so every definition is executable.
-/

namespace GProfiler

/-! ## PerfProcess (`gprofiler/profilers/perf.py`, class PerfProcess) -/

/-- Events produced by a `PerfProcess` operation: subprocess launches,
kills, signals, log lines and artifact post-processing steps. -/
inductive PerfEvent
  | startProc (cmd : List String) (h : Nat)
  | killProc (h : Nat)
  | logCritical (stdoutText stderrText : String)
  | terminate (h : Nat)
  | waitExit (h : Nat)
  | sendSignal (h : Nat) (sig : String)
  | readStderr (h : Nat)
  | runInject (dataPath : String)
  | runScript (dataPath : String)
  | unlinkFile (dataPath : String)
  deriving DecidableEq, Repr

/-- Failure conditions of `PerfProcess` operations.  `startTimeout` models the
re-raised `TimeoutError` of `PerfProcess.start` (the spec's
`SamplerStartTimeout`); `dumpTimeout` models the re-raised failure of
`wait_for_file_by_prefix` in `wait_and_script` (the spec's
`SamplerDumpTimeout`); `assertionFailed` models a failed `assert`. -/
inductive PerfErr
  | startTimeout (stdoutText stderrText : String)
  | dumpTimeout (stdoutText stderrText : String)
  | assertionFailed (msg : String)
  deriving DecidableEq, Repr

/-- State of one `PerfProcess` (`PerfProcess.__init__`): the constructor
arguments plus the optional live subprocess handle `_process`. -/
structure PerfProcess where
  frequency : Nat
  outputPath : String
  isDwarf : Bool
  injectJit : Bool
  extraArgsBase : List String
  process : Option Nat
  deriving DecidableEq, Repr

/-- `self._type = "dwarf" if is_dwarf else "fp"`. -/
def PerfProcess.typeName (p : PerfProcess) : String :=
  if p.isDwarf then "dwarf" else "fp"

/-- `self._extra_args = extra_args + (["-k", "1"] if self._inject_jit else [])`. -/
def PerfProcess.extraArgs (p : PerfProcess) : List String :=
  p.extraArgsBase ++ (if p.injectJit then ["-k", "1"] else [])

/-- `PerfProcess.__init__`: stores the arguments and leaves `_process = None`. -/
def PerfProcess.init (frequency : Nat) (outputPath : String) (isDwarf injectJit : Bool)
    (extraArgsBase : List String) : PerfProcess :=
  { frequency := frequency, outputPath := outputPath, isDwarf := isDwarf,
    injectJit := injectJit, extraArgsBase := extraArgsBase, process := none }

/-- `PerfProcess._mmap_sizes = {"fp": 129, "dwarf": 257}`. -/
def PerfProcess.mmapSize (p : PerfProcess) : Nat :=
  if p.isDwarf then 257 else 129

/-- `PerfProcess._get_perf_cmd`: the `perf record` command line.
`perf_path()` is an external resource locator; its result is the
placeholder executable name `"perf"`. -/
def PerfProcess.getPerfCmd (p : PerfProcess) : List String :=
  ["perf", "record", "-F", toString p.frequency, "-a", "-g", "-o", p.outputPath,
   "--switch-output=signal", "-m", toString p.mmapSize] ++ p.extraArgs

/-- Environment of one `PerfProcess.start` call: the handle the launched
subprocess gets, whether `wait_event`'s condition (`os.path.exists` of the
output path) becomes true within `_poll_timeout_s`, and the text captured on
the subprocess's stdout/stderr pipes. -/
structure StartEnv where
  handle : Nat
  outputAppears : Bool
  stdoutText : String
  stderrText : String
  deriving DecidableEq, Repr

/-- Result of a `PerfProcess` operation: the event trace, the state of the
controller when the call returns (or the exception propagates), and the
exception if one propagated. -/
structure PerfOpResult where
  events : List PerfEvent
  state : PerfProcess
  error : Option PerfErr
  deriving DecidableEq, Repr

/-- `PerfProcess.start`: launches `perf record`, then waits (bounded by
`_poll_timeout_s`) for the output file to appear.  On timeout it kills the
subprocess, logs the captured stdout/stderr and re-raises; only on success is
`self._process` assigned. -/
def PerfProcess.start (p : PerfProcess) (env : StartEnv) : PerfOpResult :=
  let launch := PerfEvent.startProc p.getPerfCmd env.handle
  if env.outputAppears then
    { events := [launch], state := { p with process := some env.handle }, error := none }
  else
    { events := [launch, .killProc env.handle, .logCritical env.stdoutText env.stderrText],
      state := p,
      error := some (.startTimeout env.stdoutText env.stderrText) }

/-- `PerfProcess.stop`: terminates and waits for the subprocess if a handle is
live, then clears the handle; a no-op when no handle is live. -/
def PerfProcess.stop (p : PerfProcess) : List PerfEvent × PerfProcess :=
  match p.process with
  | some h => ([.terminate h, .waitExit h], { p with process := none })
  | none => ([], p)

/-- `PerfProcess.switch_output`: asserts that profiling was started, then
sends `SIGUSR2` to the subprocess to rotate its output. -/
def PerfProcess.switch_output (p : PerfProcess) : Except PerfErr (List PerfEvent) :=
  match p.process with
  | some h => .ok [.sendSignal h "SIGUSR2"]
  | none => .error (.assertionFailed "profiling not started!")

/-- Environment of one `PerfProcess.wait_and_script` call: the rotated data
file found by `wait_for_file_by_prefix` (or `none` on its timeout), the
stdout/stderr text captured from the subprocess, and the decoded stdout of
the `perf script` subprocess. -/
structure DumpEnv where
  perfDataFile : Option String
  stdoutText : String
  stderrText : String
  scriptOut : String
  deriving DecidableEq, Repr

/-- `PerfProcess.wait_and_script` for a controller whose subprocess handle is
`h`: waits for the rotated artifact; on failure logs diagnostics, reads
stderr (the `finally` block) and re-raises; on success reads stderr, then —
only when `_inject_jit` is set — runs `perf inject --jit` and unlinks the raw
artifact, then runs `perf script` on the (possibly injected) artifact,
unlinks it and returns the script text. -/
def PerfProcess.wait_and_script (p : PerfProcess) (h : Nat) (env : DumpEnv) :
    List PerfEvent × Except PerfErr String :=
  match env.perfDataFile with
  | none =>
      ([.logCritical env.stdoutText env.stderrText, .readStderr h],
       .error (.dumpTimeout env.stdoutText env.stderrText))
  | some perfData =>
      let injectEvents :=
        if p.injectJit then
          [PerfEvent.runInject perfData, PerfEvent.unlinkFile perfData]
        else []
      let finalData := if p.injectJit then perfData ++ ".inject" else perfData
      ([PerfEvent.readStderr h] ++ injectEvents
         ++ [PerfEvent.runScript finalData, PerfEvent.unlinkFile finalData],
       .ok env.scriptOut)

/-! ## SystemProfiler (`gprofiler/profilers/perf.py`, class SystemProfiler) -/

/-- The four values of the `--perf-mode` argument. -/
inductive PerfMode
  | fp | dwarf | smart | disabled
  deriving DecidableEq, Repr

/-- State of a `SystemProfiler` after `__init__`: the optional frame-pointer
and DWARF `PerfProcess` controllers (`self._perfs` is `[fp] ++ [dwarf]`,
keeping only the present ones, in that order), plus the node-attach flag
and the round duration. -/
structure SystemProfilerState where
  duration : Nat
  perfFp : Option PerfProcess
  perfDwarf : Option PerfProcess
  perfNodeAttach : Bool
  deriving DecidableEq, Repr

/-- `SystemProfiler.__init__`: builds the frame-pointer controller when
`perf_mode in ("fp", "smart")` (passing `perf_inject` through), the DWARF
controller when `perf_mode in ("dwarf", "smart")` (with `inject_jit` fixed to
`False` — "no inject in dwarf mode, yet" — and the
`--call-graph dwarf,<stack size>` extra arguments), and asserts that at
least one controller exists. -/
def SystemProfiler.init (frequency duration : Nat) (storageDir : String)
    (perfMode : PerfMode) (perfDwarfStackSize : Nat) (perfInject : Bool)
    (perfNodeAttach : Bool) : Except PerfErr SystemProfilerState :=
  let fp : Option PerfProcess :=
    if perfMode = .fp ∨ perfMode = .smart then
      some (PerfProcess.init frequency (storageDir ++ "/perf.fp") false perfInject [])
    else none
  let dwarf : Option PerfProcess :=
    if perfMode = .dwarf ∨ perfMode = .smart then
      some (PerfProcess.init frequency (storageDir ++ "/perf.dwarf") true false
        ["--call-graph", "dwarf," ++ toString perfDwarfStackSize])
    else none
  if fp = none ∧ dwarf = none then
    .error (.assertionFailed "no perf process")
  else
    .ok { duration := duration, perfFp := fp, perfDwarf := dwarf,
          perfNodeAttach := perfNodeAttach }

/-- `self._perfs`: the list of present controllers, frame-pointer first. -/
def SystemProfilerState.perfs (s : SystemProfilerState) : List PerfProcess :=
  s.perfFp.toList ++ s.perfDwarf.toList

/-- Which of the two controllers an orchestrator-level event concerns. -/
inductive PerfKind
  | fp | dwarf
  deriving DecidableEq, Repr

/-- Orchestrator-level events of one `SystemProfiler.snapshot` round. -/
inductive SnapEvent
  | waitRound
  | rotate (k : PerfKind)
  | collect (k : PerfKind)
  | metadataLookup (pid : Int)
  deriving DecidableEq, Repr

/-- Application metadata, kept opaque: the claims only need presence. -/
structure AppMetadata where
  fields : List (String × String)
  deriving DecidableEq, Repr

/-- Exceptions that can arise while computing metadata for one process:
`NoSuchProcess` (the target vanished) or any other error. -/
inductive PyExc
  | noSuchProcess (pid : Int)
  | otherExc (msg : String)
  deriving DecidableEq, Repr

/-- Failure conditions of `SystemProfiler.snapshot`.  `stopped` models the
distinguished `StopEventSetException`; `perfFailure` models a `PerfErr`
propagating out of `switch_output` or `wait_and_script`; `metadataFailure`
models a non-`NoSuchProcess` exception escaping a metadata collector. -/
inductive SnapErr
  | stopped
  | perfFailure (e : PerfErr)
  | metadataFailure (e : PyExc)
  deriving DecidableEq, Repr

/-- Environment of `SystemProfiler._get_metadata` for one round: whether
`Process(pid)` succeeds, and for each of the two registered collectors
(`GolangPerfMetadata` first, `NodePerfMetadata` second, in
`self._metadata_collectors` order) the outcome of `relevant_for_process` and
of `get_metadata`, either of which may raise. -/
structure MetaEnv where
  processLookup : Int → Except PyExc Unit
  relevantFor : Nat → Int → Except PyExc Bool
  collectorMeta : Nat → Int → Except PyExc AppMetadata

/-- The `try:` body of `_get_metadata`: construct `Process(pid)`, then ask
each collector in order whether it is relevant and return the first relevant
collector's metadata; `None` when no collector claims the process. -/
def getMetadataBody (env : MetaEnv) (pid : Int) : Except PyExc (Option AppMetadata) :=
  match env.processLookup pid with
  | .error e => .error e
  | .ok () =>
      match env.relevantFor 0 pid with
      | .error e => .error e
      | .ok true =>
          match env.collectorMeta 0 pid with
          | .error e => .error e
          | .ok m => .ok (some m)
      | .ok false =>
          match env.relevantFor 1 pid with
          | .error e => .error e
          | .ok true =>
              match env.collectorMeta 1 pid with
              | .error e => .error e
              | .ok m => .ok (some m)
          | .ok false => .ok none

/-- `SystemProfiler._get_metadata`: returns `None` immediately for the
sentinel pids 0 and −1 reported by perf; otherwise runs the collector
dispatch with `except NoSuchProcess: pass`, so a vanished process also
yields `None`. -/
def SystemProfiler.getMetadata (env : MetaEnv) (pid : Int) :
    Except PyExc (Option AppMetadata) :=
  if pid = 0 ∨ pid = -1 then .ok none
  else
    match getMetadataBody env pid with
    | .error (.noSuchProcess _) => .ok none
    | r => r

/-- One entry of a round's result: `ProfileData(stacks, appid, metadata)`
keyed by pid.  The stack collection is kept opaque as the merge engine's
output text (field `stackData`, the Python `stacks`). -/
structure ProfileData where
  stackData : String
  appId : Option String
  metadata : Option AppMetadata
  deriving DecidableEq, Repr

/-- Environment of one `SystemProfiler.snapshot` round: whether the stop
event is (or becomes) set during the round wait, the `wait_and_script`
environments of the two controllers, the merge engine's result (the
`merge.merge_global_perfs` module is outside the embedded core, so its
output per input pair is environment data), and the metadata environment. -/
structure SnapshotEnv where
  stopSet : Bool
  fpDump : DumpEnv
  dwarfDump : DumpEnv
  mergeResult : Option String → Option String → List (Int × String)
  metaEnv : MetaEnv

/-- The result-map construction of `SystemProfiler.snapshot`: for each
`(pid, stacks)` entry of the merge engine's output, in order, a
`ProfileData(stacks, None, self._get_metadata(pid))` entry; the first
exception escaping a metadata lookup propagates. -/
def buildResult (menv : MetaEnv) (merged : List (Int × String)) :
    Except SnapErr (List (Int × ProfileData)) :=
  match merged with
  | [] => .ok []
  | kv :: rest =>
      match SystemProfiler.getMetadata menv kv.1 with
      | .error e => .error (.metadataFailure e)
      | .ok m =>
          match buildResult menv rest with
          | .error e => .error e
          | .ok items => .ok ((kv.1, ⟨kv.2, none, m⟩) :: items)

/-- The collection phase of `SystemProfiler.snapshot`, after rotation:
`self._perf_fp.wait_and_script()` first (when present), then
`self._perf_dwarf.wait_and_script()` (when present) — a failure propagates
and skips the rest — then the merge and the result-map construction.
Returns the controllers collected in order, the pids looked up for
metadata, and the round result. -/
def snapshotCollect (s : SystemProfilerState) (env : SnapshotEnv) :
    List PerfKind × List Int × Except SnapErr (List (Int × ProfileData)) :=
  let fpKinds := (s.perfFp.map fun _ => PerfKind.fp).toList
  let dwarfKinds := (s.perfDwarf.map fun _ => PerfKind.dwarf).toList
  let fpScript : Except PerfErr (Option String) :=
    match s.perfFp with
    | none => .ok none
    | some p =>
        match (p.wait_and_script 0 env.fpDump).2 with
        | .ok text => .ok (some text)
        | .error e => .error e
  match fpScript with
  | .error e => (fpKinds, [], .error (.perfFailure e))
  | .ok fpText =>
      let dwarfScript : Except PerfErr (Option String) :=
        match s.perfDwarf with
        | none => .ok none
        | some p =>
            match (p.wait_and_script 0 env.dwarfDump).2 with
            | .ok text => .ok (some text)
            | .error e => .error e
      match dwarfScript with
      | .error e => (fpKinds ++ dwarfKinds, [], .error (.perfFailure e))
      | .ok dwarfText =>
          let merged := env.mergeResult fpText dwarfText
          (fpKinds ++ dwarfKinds, merged.map Prod.fst, buildResult env.metaEnv merged)

/-- The controllers of `self._perfs`, frame-pointer first, tagged with
their kind. -/
def SystemProfilerState.taggedPerfs (s : SystemProfilerState) :
    List (PerfKind × PerfProcess) :=
  (s.perfFp.map fun p => (PerfKind.fp, p)).toList
    ++ (s.perfDwarf.map fun p => (PerfKind.dwarf, p)).toList

/-- The rotation loop `for perf in self._perfs: perf.switch_output()`: each
controller is signalled in order; the first `switch_output` failure aborts
the loop, so later controllers receive no rotate signal.  Returns the kinds
actually signalled and the outcome. -/
def rotateLoop : List (PerfKind × PerfProcess) → List PerfKind × Except SnapErr Unit
  | [] => ([], .ok ())
  | (k, p) :: rest =>
      match p.switch_output with
      | .error e => ([], .error (.perfFailure e))
      | .ok _ =>
          let (ks, r) := rotateLoop rest
          (k :: ks, r)

/-- `SystemProfiler.snapshot` (node-attach bookkeeping elided — it precedes
the round wait and produces no rotate/collect events): fails with the
distinguished stopped condition if `self._stop_event.wait(self._duration)`
returns true; otherwise rotates every controller in `self._perfs` order
(`switch_output` asserts the controller was started), and only after the
whole rotation loop runs the collection phase. -/
def SystemProfiler.snapshot (s : SystemProfilerState) (env : SnapshotEnv) :
    List SnapEvent × Except SnapErr (List (Int × ProfileData)) :=
  if env.stopSet then
    ([.waitRound], .error .stopped)
  else
    let (rotKinds, rotated) := rotateLoop s.taggedPerfs
    let preamble := SnapEvent.waitRound :: rotKinds.map SnapEvent.rotate
    match rotated with
    | .error e => (preamble, .error e)
    | .ok () =>
        let (collectKinds, metaPids, res) := snapshotCollect s env
        (preamble ++ collectKinds.map SnapEvent.collect
           ++ metaPids.map SnapEvent.metadataLookup, res)

/-- `SystemProfiler.start` (node-attach bookkeeping elided): starts every
controller in `self._perfs` order, frame-pointer first; a start failure
propagates. -/
def SystemProfiler.start (s : SystemProfilerState) (envFp envDwarf : StartEnv) :
    Except PerfErr SystemProfilerState :=
  let stepFp : Except PerfErr (Option PerfProcess) :=
    match s.perfFp with
    | none => .ok none
    | some p =>
        let r := p.start envFp
        match r.error with
        | some e => .error e
        | none => .ok (some r.state)
  match stepFp with
  | .error e => .error e
  | .ok fp' =>
      match s.perfDwarf with
      | none => .ok { s with perfFp := fp' }
      | some p =>
          let r := p.start envDwarf
          match r.error with
          | some e => .error e
          | none => .ok { s with perfFp := fp', perfDwarf := some r.state }

/-! ## NodeJS attach protocol (`gprofiler/profilers/node.py`) -/

/-- JSON values, as decoded by `json.loads` / `requests.Response.json`. -/
inductive Json
  | str (s : String)
  | num (n : Int)
  | boolean (b : Bool)
  | null
  | arr (xs : List Json)
  | obj (fields : List (String × Json))

mutual

/-- Python `==` on decoded JSON values (structural equality). -/
def Json.beq : Json → Json → Bool
  | .str a, .str b => a = b
  | .num a, .num b => a = b
  | .boolean a, .boolean b => a = b
  | .null, .null => true
  | .arr xs, .arr ys => Json.beqList xs ys
  | .obj xs, .obj ys => Json.beqFields xs ys
  | _, _ => false

/-- Elementwise `Json.beq` on arrays. -/
def Json.beqList : List Json → List Json → Bool
  | [], [] => true
  | x :: xs, y :: ys => Json.beq x y && Json.beqList xs ys
  | _, _ => false

/-- Elementwise `Json.beq` on dict entries. -/
def Json.beqFields : List (String × Json) → List (String × Json) → Bool
  | [], [] => true
  | (k₁, v₁) :: xs, (k₂, v₂) :: ys => k₁ = k₂ && Json.beq v₁ v₂ && Json.beqFields xs ys
  | _, _ => false

end

/-- Failure conditions of the node attach protocol.  `urlNotFound` models
`NodeDebuggerUrlNotFound`, `unexpectedResponse` models
`NodeDebuggerUnexpectedResponse`, `jsonDecodeError` a `requests`
JSON-decoding failure (not retried), `wrongTargetProcess` the failed
validation `assert` (the spec's `WrongTargetProcess`), `pyTypeError` a
subscript on a non-dict message, and `pyExc` any other propagated Python
exception. -/
inductive NodeErr
  | urlNotFound (info : String)
  | unexpectedResponse
  | jsonDecodeError
  | wrongTargetProcess (msg : String)
  | pyTypeError
  | pyExc (e : PyExc)
  deriving DecidableEq, Repr

/-- Subscript `j[key]` on a decoded JSON value: `KeyError` when the dict
lacks the key, `TypeError` when the value is not a dict at all. -/
def Json.index (j : Json) (key : String) : Except NodeErr Json :=
  match j with
  | .obj fields =>
      match fields.find? (fun kv => kv.1 = key) with
      | some kv => .ok kv.2
      | none => .error .unexpectedResponse
  | _ => .error .pyTypeError

/-- `key in j` for a decoded JSON dict (`"webSocketDebuggerUrl" in ...`). -/
def Json.hasKey (j : Json) (key : String) : Bool :=
  match j with
  | .obj fields => (fields.find? (fun kv => kv.1 = key)).isSome
  | _ => false

/-- Whether `sub` is an initial segment of `hay`. -/
def charsStartWith : List Char → List Char → Bool
  | [], _ => true
  | _ :: _, [] => false
  | c :: cs, h :: hs => c == h && charsStartWith cs hs

/-- Whether `sub` occurs contiguously somewhere in the second list. -/
def charsContain (sub : List Char) : List Char → Bool
  | [] => sub.isEmpty
  | h :: t => charsStartWith sub (h :: t) || charsContain sub t

/-- Python's `sub in s` substring test. -/
def strContains (s sub : String) : Bool :=
  charsContain sub.data s.data

/-- One HTTP response of the local debug-listing endpoint
(`http://127.0.0.1:9229/json/list`): status code, the `Content-Type` header
(empty when the header is missing), the raw text, and the decoded JSON body
(`none` when the body does not decode). -/
structure HttpResponse where
  statusCode : Nat
  contentType : String
  text : String
  body : Option Json

/-- One un-decorated attempt of `_get_debugger_url`: `NodeDebuggerUrlNotFound`
on a non-200 status or a `Content-Type` without `application/json`; a decode
failure of the body propagates as is; `NodeDebuggerUrlNotFound` again unless
the body is a non-empty array whose first element is a dict carrying
`webSocketDebuggerUrl`; otherwise that entry's value. -/
def getDebuggerUrlOnce (r : HttpResponse) : Except NodeErr Json :=
  if r.statusCode ≠ 200 ∨ ¬ strContains r.contentType "application/json" then
    .error (.urlNotFound r.text)
  else
    match r.body with
    | none => .error .jsonDecodeError
    | some j =>
        match j with
        | .arr (first :: _) =>
            match first with
            | .obj fields =>
                match fields.find? (fun kv => kv.1 = "webSocketDebuggerUrl") with
                | some kv => .ok kv.2
                | none => .error (.urlNotFound r.text)
            | _ => .error (.urlNotFound r.text)
        | _ => .error (.urlNotFound r.text)

/-- Modelled from the spec: the bounded-retry combinator applied to
`_get_debugger_url` by its `@retry(NodeDebuggerUrlNotFound, 5, 1)` decorator
(the `retry` package is an external dependency, not part of the embedded
sources) — "bounded retries with fixed backoff, e.g. 5 attempts at 1-second
spacing".  Runs attempt `idx`; a success or a non-`urlNotFound` error
returns at once; a `urlNotFound` error sleeps `delay` seconds and retries
while attempts remain, re-raising after the last one.  Returns the result,
the number of attempts made, and the list of sleeps performed. -/
def retryRun (delay : Nat) (f : Nat → Except NodeErr Json) :
    Nat → Nat → Except NodeErr Json × Nat × List Nat
  | 0, _ => (.error (.urlNotFound ""), 0, [])
  | 1, idx => (f idx, 1, [])
  | n + 2, idx =>
      match f idx with
      | .ok a => (.ok a, 1, [])
      | .error (.urlNotFound _) =>
          let rest := retryRun delay f (n + 1) (idx + 1)
          (rest.1, rest.2.1 + 1, delay :: rest.2.2)
      | .error e => (.error e, 1, [])

/-- `_get_debugger_url` with its retry decorator: up to 5 attempts at
1-second spacing against the successive responses of the debug-listing
endpoint. -/
def getDebuggerUrl (responses : Nat → HttpResponse) :
    Except NodeErr Json × Nat × List Nat :=
  retryRun 1 (fun i => getDebuggerUrlOnce (responses i)) 5 0

/-- Events of one attach/detach session against a target process. -/
inductive NodeEvent
  | httpGet (attempt : Nat)
  | connect (url : Json)
  | setTimeout (seconds : Nat)
  | evaluate (expr : String)
  | removeMapFile (path : String)

/-- Environment of one debugger socket: for each `Runtime.evaluate`
expression, the raw message the websocket answers (`none` models a message
that `json.loads` cannot decode), plus the successive HTTP responses of the
discovery endpoint. -/
structure DebugEnv where
  responses : Nat → HttpResponse
  evalResponse : String → Option Json

/-- The reply processing of `_execute_js_command`: reads
`message["result"]["result"]["value"]` from the decoded reply; a decode
failure or a `KeyError` raises `NodeDebuggerUnexpectedResponse`. -/
def executeJsResult (env : DebugEnv) (cmd : String) : Except NodeErr Json :=
  match env.evalResponse cmd with
  | none => .error .unexpectedResponse
  | some msg =>
      match msg.index "result" with
      | .error e => .error e
      | .ok r1 =>
          match r1.index "result" with
          | .error e => .error e
          | .ok r2 => r2.index "value"

/-- `_execute_js_command`: sends a `Runtime.evaluate` request and processes
the reply. -/
def executeJsCommand (env : DebugEnv) (cmd : String) :
    List NodeEvent × Except NodeErr Json :=
  ([.evaluate cmd], executeJsResult env cmd)

/-- The introspection expression of `_validate_ns_node`: ask the target to
read its own pid-namespace link. -/
def nsReadlinkCommand : String :=
  "const fs = process.mainModule.require(\"fs\"); fs.readlinkSync(\"/proc/self/ns/pid\")"

/-- The introspection expression of `_validate_pid`. -/
def pidCommand : String := "process.pid"

/-- `_validate_ns_node`: asks the target for its pid-namespace link over the
protocol and asserts it equals the expected link (a non-string answer never
equals the expected string). -/
def validateNsNode (env : DebugEnv) (expected : String) :
    List NodeEvent × Except NodeErr Unit :=
  let (evts, r) := executeJsCommand env nsReadlinkCommand
  (evts,
   match r with
   | .error e => .error e
   | .ok v =>
       if v.beq (Json.str expected) then .ok ()
       else .error (.wrongTargetProcess "Wrong namespace"))

/-- `_validate_pid`: asks the target for its own (namespace-local) pid over
the protocol and asserts it equals the expected one. -/
def validatePid (env : DebugEnv) (expected : Int) :
    List NodeEvent × Except NodeErr Unit :=
  let (evts, r) := executeJsCommand env pidCommand
  (evts,
   match r with
   | .error e => .error e
   | .ok v =>
       if v.beq (Json.num expected) then .ok ()
       else .error (.wrongTargetProcess "Wrong pid"))

/-- `create_debugger_socket`: discovers the debugger URL (bounded retries),
connects, sets the socket timeout, then validates the pid-namespace link and
the namespace-local pid through the protocol itself. -/
def create_debugger_socket (env : DebugEnv) (nspid : Int) (nsLinkName : String) :
    List NodeEvent × Except NodeErr Unit :=
  let (urlRes, attempts, _) := getDebuggerUrl env.responses
  let discovery := (List.range attempts).map NodeEvent.httpGet
  match urlRes with
  | .error e => (discovery, .error e)
  | .ok url =>
      let pre := discovery ++ [NodeEvent.connect url, NodeEvent.setTimeout 10]
      let (nsEvts, nsRes) := validateNsNode env nsLinkName
      match nsRes with
      | .error e => (pre ++ nsEvts, .error e)
      | .ok () =>
          let (pidEvts, pidRes) := validatePid env nspid
          match pidRes with
          | .error e => (pre ++ nsEvts ++ pidEvts, .error e)
          | .ok () => (pre ++ nsEvts ++ pidEvts, .ok ())

/-- The payload-control expression sent by `_change_dso_state`. -/
def dsoExpr (modulePath action : String) : String :=
  "process.mainModule.require(\"" ++ modulePath ++ "/linux-perf.js\")." ++ action ++ "()"

/-- `_send_socket_request`: sends a request and validates the reply carries a
nested boolean-typed result. -/
def sendSocketRequest (env : DebugEnv) (expr : String) :
    List NodeEvent × Except NodeErr Unit :=
  ([.evaluate expr],
   match env.evalResponse expr with
   | none => .error .unexpectedResponse
   | some msg =>
       if msg.hasKey "result" then
         match msg.index "result" with
         | .ok r1 =>
             if r1.hasKey "result" then
               match r1.index "result" with
               | .ok r2 =>
                   if r2.hasKey "type" &&
                       (match r2.index "type" with
                        | .ok t => t.beq (Json.str "boolean")
                        | .error _ => false) then
                     .ok ()
                   else .error .unexpectedResponse
               | .error e => .error e
             else .error .unexpectedResponse
         | .error e => .error e
       else .error .unexpectedResponse)

/-- `_change_dso_state`: instructs the in-target payload module to start or
stop emitting the perf map. -/
def changeDsoState (env : DebugEnv) (modulePath action : String) :
    List NodeEvent × Except NodeErr Unit :=
  sendSocketRequest env (dsoExpr modulePath action)

/-- The payload-control events among a session trace: the `Runtime.evaluate`
requests that load and start/stop the payload module, recognised by their
`linux-perf.js` module expression (both of `_change_dso_state`'s actions). -/
def isDsoControl (e : NodeEvent) : Bool :=
  match e with
  | .evaluate s => strContains s "linux-perf.js"
  | _ => false

/-- `_generate_perf_map`: opens a validated debugger socket, then starts the
payload module. -/
def generate_perf_map (env : DebugEnv) (modulePath : String) (nspid : Int)
    (nsLinkName : String) : List NodeEvent × Except NodeErr Unit :=
  let (sockEvts, sockRes) := create_debugger_socket env nspid nsLinkName
  match sockRes with
  | .error e => (sockEvts, .error e)
  | .ok () =>
      let (dsoEvts, dsoRes) := changeDsoState env modulePath "start"
      (sockEvts ++ dsoEvts, dsoRes)

/-- `_clean_up`: opens a validated debugger socket, asks the payload module
to stop, and — in a `finally` block — removes the per-process perf-map
artifact. -/
def clean_up (env : DebugEnv) (modulePath : String) (nspid : Int)
    (nsLinkName : String) : List NodeEvent × Except NodeErr Unit :=
  let (sockEvts, sockRes) := create_debugger_socket env nspid nsLinkName
  match sockRes with
  | .error e => (sockEvts, .error e)
  | .ok () =>
      let (dsoEvts, dsoRes) := changeDsoState env modulePath "stop"
      let rmEvt := NodeEvent.removeMapFile ("/tmp/perf-" ++ toString nspid ++ ".map")
      (sockEvts ++ dsoEvts ++ [rmEvt], dsoRes)

/-! ## Payload deployment (`node.py`, `_copy_module_into_process_ns`) -/

/-- Modelled from the spec: `TEMPORARY_STORAGE_PATH`, the "shared
temporary-storage root" under which payloads are deployed (defined in
`gprofiler/utils.py`, outside the embedded sources; its concrete value does
not matter to the claims). -/
def TEMPORARY_STORAGE_PATH : String := "/tmp/gprofiler_tmp"

/-- `os.path.join` of an absolute root with relative components. -/
def joinPath (root : String) (parts : List String) : String :=
  parts.foldl (fun acc p => acc ++ "/" ++ p) root

/-- Modelled from the spec: `resource_path`, the opaque "resource locator
returning a filesystem path" for bundled payload files (defined in
`gprofiler/utils/fs.py`, outside the embedded sources). -/
def resource_path (rel : String) : String :=
  "/app/gprofiler/resources/" ++ rel

/-- Contents of the two payload build-identity version files read by
`_get_dso_git_rev`. -/
structure DsoVersionFiles where
  glibcVer : String
  muslVer : String
  deriving DecidableEq, Repr

/-- `_get_dso_git_rev`: reads both version files and asserts they agree,
returning the shared payload build identity. -/
def getDsoGitRev (v : DsoVersionFiles) : Except NodeErr String :=
  if v.glibcVer = v.muslVer then .ok v.glibcVer
  else .error (.pyExc (.otherExc "dso version files differ"))

/-- `_get_dest_inside_container`: the deployment path inside the target's
mount namespace, keyed by the payload build identity, the C-library flavor
and the runtime major version. -/
def getDestInsideContainer (gitRev : String) (musl : Bool) (nodeVersion : String) : String :=
  joinPath TEMPORARY_STORAGE_PATH
    ["node_module", gitRev, if musl then "musl" else "glibc", nodeVersion]

/-- Filesystem effects of payload deployment. -/
inductive FsEvent
  | copyTree (src dest : String)
  | addPermissions (dest : String)
  deriving DecidableEq, Repr

/-- Environment of one `_copy_module_into_process_ns` call: the version
files, the target's proc-root path, the namespace link resolver
(`resolve_proc_root_links`) and the `os.path.exists` oracle. -/
structure DeployEnv where
  versionFiles : DsoVersionFiles
  procRootPath : String
  resolveLinks : String → String → String
  destExists : String → Bool

/-- `_copy_module_into_process_ns`: computes the in-namespace destination
path, resolves it through the target's proc root, and — only when the
resolved path does not yet exist — copies the matching payload into it and
relaxes its permissions.  Always returns the in-namespace destination. -/
def copyModuleIntoProcessNs (env : DeployEnv) (musl : Bool) (version : String) :
    List FsEvent × Except NodeErr String :=
  match getDsoGitRev env.versionFiles with
  | .error e => ([], .error e)
  | .ok rev =>
      let destInside := getDestInsideContainer rev musl version
      let dest := env.resolveLinks env.procRootPath destInside
      if env.destExists dest then
        ([], .ok destInside)
      else
        let src := resource_path
          (joinPath "node" ["module", if musl then "musl" else "glibc", rev, version])
        ([.copyTree src dest, .addPermissions dest], .ok destInside)

/-! ## Attach-all / detach-all loops (`node.py`,
`generate_map_for_node_processes` and `clean_up_node_maps`) -/

/-- Lift a Python exception into the node error taxonomy. -/
def liftPy : Except PyExc α → Except NodeErr α
  | .ok a => .ok a
  | .error e => .error (.pyExc e)

/-- Per-target environment of one iteration of the attach/detach loops: the
outcomes of the per-process probes (`is_musl`, `_get_node_major_version`,
`get_process_nspid`, the `/proc/<pid>/ns/pid` readlink, the `SIGUSR1`
`os.kill`), the deployment environment, the debugger environment, and
whether `is_process_running` still holds at detach time. -/
structure NodeTarget where
  pid : Int
  running : Bool
  muslResult : Except PyExc Bool
  versionResult : Except PyExc String
  deployEnv : DeployEnv
  nspidResult : Except PyExc Int
  nsLinkResult : Except PyExc String
  killResult : Except PyExc Unit
  sockEnv : DebugEnv

/-- The `try:` body of one `generate_map_for_node_processes` iteration:
probe the target, deploy the payload, signal the debugger open, and run
`_generate_perf_map` inside the target's namespaces
(`passthrough_exception=True`, so its failure propagates to the handler). -/
def attachOne (t : NodeTarget) : Except NodeErr Unit := do
  let musl ← liftPy t.muslResult
  let version ← liftPy t.versionResult
  let dest ← (copyModuleIntoProcessNs t.deployEnv musl version).2
  let nspid ← liftPy t.nspidResult
  let nsLink ← liftPy t.nsLinkResult
  let _ ← liftPy t.killResult
  (generate_perf_map t.sockEnv dest nspid nsLink).2

/-- The `try:` body of one `clean_up_node_maps` iteration: skip targets no
longer running, re-probe, recompute the deployment path and run `_clean_up`
inside the target's namespaces. -/
def cleanOne (t : NodeTarget) : Except NodeErr Unit := do
  if t.running then
    let version ← liftPy t.versionResult
    let nspid ← liftPy t.nspidResult
    let nsLink ← liftPy t.nsLinkResult
    let musl ← liftPy t.muslResult
    let rev ← getDsoGitRev t.deployEnv.versionFiles
    let dest := getDestInsideContainer rev musl version
    (clean_up t.sockEnv dest nspid nsLink).2
  else
    pure ()

/-- The per-iteration `except Exception` handler: a failed body is logged as
a warning against the target's pid, and never re-raised. -/
def logIsolated (t : NodeTarget) (body : NodeTarget → Except NodeErr Unit) :
    Int × Option NodeErr :=
  match body t with
  | .ok () => (t.pid, none)
  | .error e => (t.pid, some e)

/-- `generate_map_for_node_processes`: iterates over all targets, attaching
to each; a per-target failure is caught by the in-loop handler and logged,
so the loop continues with the remaining targets. -/
def generate_map_for_node_processes (ts : List NodeTarget) :
    Except NodeErr (List (Int × Option NodeErr)) :=
  match ts with
  | [] => .ok []
  | t :: rest =>
      let entry := logIsolated t attachOne
      match generate_map_for_node_processes rest with
      | .error e => .error e
      | .ok entries => .ok (entry :: entries)

/-- `clean_up_node_maps`: iterates over all targets, detaching from each;
a per-target failure is caught by the in-loop handler and logged, so the
loop continues with the remaining targets. -/
def clean_up_node_maps (ts : List NodeTarget) :
    Except NodeErr (List (Int × Option NodeErr)) :=
  match ts with
  | [] => .ok []
  | t :: rest =>
      let entry := logIsolated t cleanOne
      match clean_up_node_maps rest with
      | .error e => .error e
      | .ok entries => .ok (entry :: entries)

/-! ## Event classification helpers -/

/-- Whether an orchestrator event is a rotate-signal step. -/
def SnapEvent.isRotate : SnapEvent → Bool
  | .rotate _ => true
  | _ => false

/-- Whether an orchestrator event is a collect step. -/
def SnapEvent.isCollect : SnapEvent → Bool
  | .collect _ => true
  | _ => false

/-! ## Theorems -/

/-- In a concatenated trace whose first half has no `Q`-event and whose
second half has no `P`-event, every `P`-event position precedes every
`Q`-event position. -/
theorem allP_before_allQ_append {α : Type} (P Q : α → Bool) (xs ys : List α)
    (hx : ∀ e ∈ xs, Q e = false) (hy : ∀ e ∈ ys, P e = false)
    (i j : Nat) (hi : i < (xs ++ ys).length) (hj : j < (xs ++ ys).length)
    (hPi : P ((xs ++ ys).get ⟨i, hi⟩) = true)
    (hQj : Q ((xs ++ ys).get ⟨j, hj⟩) = true) :
    i < j := by
  have hilt : i < xs.length := by
    by_contra hge
    push_neg at hge
    have hiy : i - xs.length < ys.length := by
      have := hi
      simp [List.length_append] at this
      omega
    have : (xs ++ ys).get ⟨i, hi⟩ = ys.get ⟨i - xs.length, hiy⟩ := by
      simp [List.get_eq_getElem, List.getElem_append_right, hge]
    rw [this] at hPi
    have := hy _ (List.get_mem ys _ hiy)
    rw [this] at hPi
    exact Bool.false_ne_true hPi
  have hjge : xs.length ≤ j := by
    by_contra hlt
    push_neg at hlt
    have : (xs ++ ys).get ⟨j, hj⟩ = xs.get ⟨j, hlt⟩ := by
      simp [List.get_eq_getElem, List.getElem_append_left, hlt]
    rw [this] at hQj
    have := hx _ (List.get_mem xs _ hlt)
    rw [this] at hQj
    exact Bool.false_ne_true hQj
  omega

/-- C5: when the output file does not appear within the bounded startup
timeout, `PerfProcess.start` fails with the `SamplerStartTimeout` condition
carrying the captured stdout/stderr, the launched subprocess is killed (every
launched handle has a matching kill in the trace, so no orphaned sampler
survives the call), the diagnostics are surfaced in the log, and the
controller's subprocess handle remains absent. -/
theorem start_timeout_kills_and_raises (freq : Nat) (out : String) (isD inj : Bool)
    (ea : List String) (env : StartEnv) (henv : env.outputAppears = false) :
    ((PerfProcess.init freq out isD inj ea).start env).error
        = some (.startTimeout env.stdoutText env.stderrText) ∧
    ((PerfProcess.init freq out isD inj ea).start env).events
        = [.startProc (PerfProcess.init freq out isD inj ea).getPerfCmd env.handle,
           .killProc env.handle, .logCritical env.stdoutText env.stderrText] ∧
    (∀ cmd h, PerfEvent.startProc cmd h ∈ ((PerfProcess.init freq out isD inj ea).start env).events →
      PerfEvent.killProc h ∈ ((PerfProcess.init freq out isD inj ea).start env).events) ∧
    ((PerfProcess.init freq out isD inj ea).start env).state.process = none := by
  refine ⟨?_, ?_, ?_, ?_⟩
  · simp [PerfProcess.start, henv]
  · simp [PerfProcess.start, henv]
  · intro cmd h hmem
    simp [PerfProcess.start, henv] at hmem ⊢
    rcases hmem with ⟨_, rfl⟩
    simp
  · simp [PerfProcess.start, henv, PerfProcess.init]

/-- Witness for `start_timeout_kills_and_raises` at a concrete controller
and environment. -/
theorem start_timeout_kills_and_raises_witness :
    let env : StartEnv := ⟨7, false, "so", "se"⟩
    ((PerfProcess.init 11 "out" false false []).start env).error
        = some (.startTimeout "so" "se") ∧
    ((PerfProcess.init 11 "out" false false []).start env).state.process = none := by
  intro env
  have h := start_timeout_kills_and_raises 11 "out" false false [] env rfl
  exact ⟨h.1, h.2.2.2⟩

/-- C6: `stop()` is always safe and idempotent: it is a no-op on a controller
that was never started; after a start, the first `stop` terminates and waits
for the subprocess and clears the handle, and a second `stop` does nothing
more, so the subprocess is terminated exactly once and the handle is absent
after `stop` returns. -/
theorem stop_idempotent_and_safe :
    (∀ freq out isD inj ea,
      (PerfProcess.init freq out isD inj ea).stop
        = ([], PerfProcess.init freq out isD inj ea)) ∧
    (∀ (p : PerfProcess) (h : Nat), p.process = some h →
      p.stop.1 = [.terminate h, .waitExit h] ∧
      p.stop.2.process = none ∧
      p.stop.2.stop = ([], p.stop.2) ∧
      (p.stop.1 ++ p.stop.2.stop.1).count (PerfEvent.terminate h) = 1) := by
  constructor
  · intro freq out isD inj ea
    simp [PerfProcess.init, PerfProcess.stop]
  · intro p h hp
    refine ⟨?_, ?_, ?_, ?_⟩ <;> simp [PerfProcess.stop, hp, List.count_cons]

/-- Witness for `stop_idempotent_and_safe` at a concrete started
controller. -/
theorem stop_idempotent_and_safe_witness :
    let p : PerfProcess := ⟨11, "out", false, false, [], some 7⟩
    p.stop.1 = [.terminate 7, .waitExit 7] ∧ p.stop.2.process = none := by
  intro p
  have h := stop_idempotent_and_safe.2 p 7 rfl
  exact ⟨h.1, h.2.1⟩

/-- C8: the round wait observes the external stop signal: when the stop
event is set (already, or during the wait modelled by `stopSet`),
`snapshot` raises the distinguished stopped condition (`SnapErr.stopped`, a
constructor separate from every failure condition) and performs no rotation,
no collection, and returns no partial round result. -/
theorem snapshot_observes_stop_signal (s : SystemProfilerState) (env : SnapshotEnv)
    (h : env.stopSet = true) :
    SystemProfiler.snapshot s env = ([.waitRound], .error .stopped) ∧
    (∀ e ∈ (SystemProfiler.snapshot s env).1, e.isRotate = false ∧ e.isCollect = false) := by
  have hs : SystemProfiler.snapshot s env = ([.waitRound], .error .stopped) := by
    simp [SystemProfiler.snapshot, h]
  refine ⟨hs, ?_⟩
  rw [hs]
  intro e he
  simp at he
  subst he
  exact ⟨rfl, rfl⟩

/-- Witness for `snapshot_observes_stop_signal` at a concrete state and a
set stop signal. -/
theorem snapshot_observes_stop_signal_witness :
    let s : SystemProfilerState := ⟨10, none, some ⟨11, "o", true, false, [], some 3⟩, false⟩
    let env : SnapshotEnv := ⟨true, ⟨none, "", "", ""⟩, ⟨none, "", "", ""⟩,
      fun _ _ => [], ⟨fun _ => .ok (), fun _ _ => .ok false, fun _ _ => .ok ⟨[]⟩⟩⟩
    SystemProfiler.snapshot s env = ([.waitRound], .error .stopped) := by
  intro s env
  exact (snapshot_observes_stop_signal s env rfl).1

/-- C9: for every configuration accepted by the orchestrator's constructor,
the DWARF controller — when present — is constructed with JIT-symbol
injection disabled, and consequently its collect step never performs the
JIT-inject post-processing pass. -/
theorem dwarf_controller_never_injects (freq dur : Nat) (dir : String) (mode : PerfMode)
    (sz : Nat) (inj na : Bool) (s : SystemProfilerState) (d : PerfProcess)
    (hinit : SystemProfiler.init freq dur dir mode sz inj na = .ok s)
    (hd : s.perfDwarf = some d) :
    d.injectJit = false ∧
    ∀ (h : Nat) (env : DumpEnv) (path : String),
      PerfEvent.runInject path ∉ (d.wait_and_script h env).1 := by
  have hinj : d.injectJit = false := by
    cases mode
    case fp =>
      simp [SystemProfiler.init] at hinit
      rw [← hinit] at hd
      simp at hd
    case dwarf =>
      simp [SystemProfiler.init] at hinit
      rw [← hinit] at hd
      simp [PerfProcess.init] at hd
      rw [← hd]
    case smart =>
      simp [SystemProfiler.init] at hinit
      rw [← hinit] at hd
      simp [PerfProcess.init] at hd
      rw [← hd]
    case disabled =>
      simp [SystemProfiler.init] at hinit
  refine ⟨hinj, ?_⟩
  intro h env path
  cases henv : env.perfDataFile <;>
    simp [PerfProcess.wait_and_script, henv, hinj]

/-- Witness for `dwarf_controller_never_injects` at the `smart`-mode
configuration with JIT injection requested. -/
theorem dwarf_controller_never_injects_witness :
    ∃ s d, SystemProfiler.init 11 60 "sd" .smart 8192 true true = .ok s ∧
      s.perfDwarf = some d ∧ d.injectJit = false := by
  refine ⟨_, _, rfl, rfl, ?_⟩
  exact (dwarf_controller_never_injects 11 60 "sd" .smart 8192 true true _ _ rfl rfl).1

/-- C10: per-process metadata lookup never raises at the public interface:
the sentinel pids 0 and −1 yield absent metadata, a pid whose process has
disappeared (`NoSuchProcess`) yields absent metadata, and the round-result
construction keeps every such pid in the round result with its stacks and
`None` metadata. -/
theorem metadata_lookup_never_raises :
    (∀ env : MetaEnv, SystemProfiler.getMetadata env 0 = .ok none ∧
      SystemProfiler.getMetadata env (-1) = .ok none) ∧
    (∀ (env : MetaEnv) (pid q : Int),
      env.processLookup pid = .error (.noSuchProcess q) →
      SystemProfiler.getMetadata env pid = .ok none) ∧
    (∀ (menv : MetaEnv) (merged : List (Int × String)),
      (∀ kv ∈ merged, kv.1 = 0 ∨ kv.1 = -1 ∨
        ∃ q, menv.processLookup kv.1 = .error (.noSuchProcess q)) →
      buildResult menv merged = .ok (merged.map fun kv => (kv.1, ⟨kv.2, none, none⟩))) := by
  have hpart1 : ∀ env : MetaEnv, SystemProfiler.getMetadata env 0 = .ok none ∧
      SystemProfiler.getMetadata env (-1) = .ok none := by
    intro env
    constructor <;> simp [SystemProfiler.getMetadata]
  have hpart2 : ∀ (env : MetaEnv) (pid q : Int),
      env.processLookup pid = .error (.noSuchProcess q) →
      SystemProfiler.getMetadata env pid = .ok none := by
    intro env pid q h
    by_cases hpid : pid = 0 ∨ pid = -1
    · simp [SystemProfiler.getMetadata, hpid]
    · simp [SystemProfiler.getMetadata, hpid, getMetadataBody, h, Except.bind]
  refine ⟨hpart1, hpart2, ?_⟩
  intro menv merged hall
  induction merged with
  | nil => simp [buildResult]
  | cons kv rest ih =>
      have hmeta : SystemProfiler.getMetadata menv kv.1 = .ok none := by
        rcases hall kv (by simp) with h0 | h1 | ⟨q, hq⟩
        · rw [h0]; exact (hpart1 menv).1
        · rw [h1]; exact (hpart1 menv).2
        · exact hpart2 menv kv.1 q hq
      have hrest := ih (fun kv2 hm => hall kv2 (by simp [hm]))
      simp [buildResult, hmeta, hrest]

/-- Witness for `metadata_lookup_never_raises` at a concrete environment in
which every process has disappeared, with one ordinary pid in the round. -/
theorem metadata_lookup_never_raises_witness :
    let env : MetaEnv := ⟨fun p => .error (.noSuchProcess p),
      fun _ _ => .ok false, fun _ _ => .ok ⟨[]⟩⟩
    SystemProfiler.getMetadata env 0 = .ok none ∧
    SystemProfiler.getMetadata env 5 = .ok none ∧
    buildResult env [(5, "stk")] = .ok [(5, ⟨"stk", none, none⟩)] := by
  intro env
  refine ⟨(metadata_lookup_never_raises.1 env).1,
    metadata_lookup_never_raises.2.1 env 5 5 rfl,
    metadata_lookup_never_raises.2.2 env [(5, "stk")] ?_⟩
  intro kv hkv
  simp at hkv
  subst hkv
  exact Or.inr (Or.inr ⟨5, rfl⟩)

/-- C4: payload deployment is idempotent: when the deployment path for a
(C-library flavor, runtime major version, payload build identity) signature
already exists inside the target's mount namespace, a second deploy performs
no filesystem copy and no permission change, and still returns the same
in-namespace destination path as a successful first deploy for the same
signature (on any target). -/
theorem deploy_idempotent (envA envB : DeployEnv) (musl : Bool) (version : String)
    (hfiles : envB.versionFiles = envA.versionFiles)
    (hok : envA.versionFiles.glibcVer = envA.versionFiles.muslVer)
    (hexists : envB.destExists (envB.resolveLinks envB.procRootPath
      (getDestInsideContainer envA.versionFiles.glibcVer musl version)) = true) :
    (copyModuleIntoProcessNs envB musl version).1 = [] ∧
    (copyModuleIntoProcessNs envB musl version).2
      = .ok (getDestInsideContainer envA.versionFiles.glibcVer musl version) ∧
    (copyModuleIntoProcessNs envB musl version).2
      = (copyModuleIntoProcessNs envA musl version).2 := by
  have hrevB : getDsoGitRev envB.versionFiles = .ok envA.versionFiles.glibcVer := by
    simp [getDsoGitRev, hfiles, hok]
  have hrevA : getDsoGitRev envA.versionFiles = .ok envA.versionFiles.glibcVer := by
    simp [getDsoGitRev, hok]
  refine ⟨?_, ?_, ?_⟩
  · simp [copyModuleIntoProcessNs, hrevB, hexists]
  · simp [copyModuleIntoProcessNs, hrevB, hexists]
  · simp only [copyModuleIntoProcessNs, hrevA, hrevB, hexists]
    by_cases hA : envA.destExists (envA.resolveLinks envA.procRootPath
        (getDestInsideContainer envA.versionFiles.glibcVer musl version)) = true
    · simp [hA]
    · simp [hA]

/-- Witness for `deploy_idempotent`: a first deploy into an empty namespace
and a second deploy against an already-populated one agree on the returned
path, and the second performs no filesystem effect. -/
theorem deploy_idempotent_witness :
    let files : DsoVersionFiles := ⟨"rev1", "rev1"⟩
    let envA : DeployEnv := ⟨files, "/proc/10/root", fun r p => r ++ p, fun _ => false⟩
    let envB : DeployEnv := ⟨files, "/proc/20/root", fun r p => r ++ p, fun _ => true⟩
    (copyModuleIntoProcessNs envB true "16").1 = [] ∧
    (copyModuleIntoProcessNs envB true "16").2
      = (copyModuleIntoProcessNs envA true "16").2 := by
  intro files envA envB
  have h := deploy_idempotent envA envB true "16" rfl rfl rfl
  exact ⟨h.1, h.2.2⟩

/-- C7: per-process attach and detach failures are isolated: both loops
process every target in the list — each target contributes exactly one
log entry, in order, whatever the per-target outcomes — and neither loop
ever propagates a per-target exception (the result is always `ok`). -/
theorem attach_detach_failures_isolated (ts : List NodeTarget) :
    (∃ logs, generate_map_for_node_processes ts = .ok logs ∧
      logs.map Prod.fst = ts.map NodeTarget.pid) ∧
    (∃ logs, clean_up_node_maps ts = .ok logs ∧
      logs.map Prod.fst = ts.map NodeTarget.pid) := by
  constructor
  · induction ts with
    | nil => exact ⟨[], rfl, rfl⟩
    | cons t rest ih =>
        obtain ⟨logs, hok, hmap⟩ := ih
        exact ⟨logIsolated t attachOne :: logs,
          by simp [generate_map_for_node_processes, hok],
          by simp [logIsolated]; cases attachOne t <;> simp [hmap]⟩
  · induction ts with
    | nil => exact ⟨[], rfl, rfl⟩
    | cons t rest ih =>
        obtain ⟨logs, hok, hmap⟩ := ih
        exact ⟨logIsolated t cleanOne :: logs,
          by simp [clean_up_node_maps, hok],
          by simp [logIsolated]; cases cleanOne t <;> simp [hmap]⟩

/-- The discovery answers that a single `_get_debugger_url` attempt rejects
as `NodeDebuggerUrlNotFound` (and that its retry decorator therefore
retries): non-200 status, a `Content-Type` without `application/json`, or a
decoded body that is not a non-empty array whose first element is a dict
carrying `webSocketDebuggerUrl`. -/
def unusableResponse (r : HttpResponse) : Bool :=
  if r.statusCode ≠ 200 ∨ ¬ strContains r.contentType "application/json" then true
  else
    match r.body with
    | none => false
    | some j =>
        match j with
        | .arr (first :: _) =>
            match first with
            | .obj fields => (fields.find? (fun kv => kv.1 = "webSocketDebuggerUrl")).isNone
            | _ => true
        | _ => true

/-- A single attempt on an unusable response yields `NodeDebuggerUrlNotFound`. -/
theorem getDebuggerUrlOnce_rejects (r : HttpResponse) (h : unusableResponse r = true) :
    ∃ info, getDebuggerUrlOnce r = .error (.urlNotFound info) := by
  refine ⟨r.text, ?_⟩
  unfold unusableResponse at h
  unfold getDebuggerUrlOnce
  by_cases hcond : r.statusCode ≠ 200 ∨ ¬ strContains r.contentType "application/json"
  · rw [if_pos hcond]
  · rw [if_neg hcond]
    rw [if_neg hcond] at h
    cases hb : r.body with
    | none => rw [hb] at h; cases h
    | some j =>
        rw [hb] at h
        cases j with
        | arr xs =>
            cases xs with
            | nil => rfl
            | cons first rest =>
                cases first with
                | obj fields =>
                    cases hf : fields.find? (fun kv => kv.1 = "webSocketDebuggerUrl") with
                    | some kv => simp [hf] at h
                    | none => simp [hf]
                | str s => rfl
                | num n => rfl
                | boolean b => rfl
                | null => rfl
                | arr ys => rfl
        | str s => rfl
        | num n => rfl
        | boolean b => rfl
        | null => rfl
        | obj fields => rfl

/-- When every attempt fails retryably, the retry combinator makes exactly
`n` attempts spaced by `delay` and re-raises the last
`NodeDebuggerUrlNotFound`. -/
theorem retryRun_all_fail (delay : Nat) (f : Nat → Except NodeErr Json) :
    ∀ (n start : Nat), 1 ≤ n →
    (∀ i, i < n → ∃ info, f (start + i) = .error (.urlNotFound info)) →
    (retryRun delay f n start).2.1 = n ∧
    (retryRun delay f n start).2.2 = List.replicate (n - 1) delay ∧
    ∃ info, (retryRun delay f n start).1 = .error (.urlNotFound info) := by
  intro n
  induction n with
  | zero => intro start h1; omega
  | succ m ih =>
      intro start _ hf
      cases m with
      | zero =>
          obtain ⟨info, hinfo⟩ := hf 0 (by omega)
          rw [Nat.add_zero] at hinfo
          exact ⟨rfl, rfl, info, by simp [retryRun, hinfo]⟩
      | succ k =>
          obtain ⟨info0, h0⟩ := hf 0 (by omega)
          rw [Nat.add_zero] at h0
          have hrest := ih (start + 1) (by omega)
            (fun i hi => by
              have := hf (i + 1) (by omega)
              rwa [show start + (i + 1) = start + 1 + i by omega] at this)
          refine ⟨?_, ?_, ?_⟩
          · simp [retryRun, h0, hrest.1]
          · simp [retryRun, h0, hrest.2.1, List.replicate_succ]
          · obtain ⟨info, hinfo⟩ := hrest.2.2
            exact ⟨info, by simp [retryRun, h0, hinfo]⟩

/-- C3: when the local debug-listing endpoint never yields a usable answer,
discovery makes exactly 5 attempts at fixed 1-second spacing (4 sleeps of 1
second separate the 5 attempts) and raises `DebuggerEndpointNotFound`
(`NodeDebuggerUrlNotFound`). -/
theorem discovery_retries_exactly_five (responses : Nat → HttpResponse)
    (h : ∀ i, i < 5 → unusableResponse (responses i) = true) :
    (getDebuggerUrl responses).2.1 = 5 ∧
    (getDebuggerUrl responses).2.2 = [1, 1, 1, 1] ∧
    ∃ info, (getDebuggerUrl responses).1 = .error (.urlNotFound info) := by
  have hall : ∀ i, i < 5 →
      ∃ info, getDebuggerUrlOnce (responses (0 + i)) = .error (.urlNotFound info) := by
    intro i hi
    rw [Nat.zero_add]
    exact getDebuggerUrlOnce_rejects _ (h i hi)
  have := retryRun_all_fail 1 (fun i => getDebuggerUrlOnce (responses i)) 5 0
    (by omega) hall
  unfold getDebuggerUrl
  exact ⟨this.1, by rw [this.2.1]; rfl, this.2.2⟩

/-- Witness for `discovery_retries_exactly_five`: the endpoint answers
HTTP 500 on every attempt. -/
theorem discovery_retries_exactly_five_witness :
    let responses : Nat → HttpResponse := fun _ => ⟨500, "text/plain", "oops", none⟩
    (getDebuggerUrl responses).2.1 = 5 ∧ (getDebuggerUrl responses).2.2 = [1, 1, 1, 1] := by
  intro responses
  have hr : unusableResponse ⟨500, "text/plain", "oops", none⟩ = true := by decide
  have h := discovery_retries_exactly_five responses (fun _ _ => hr)
  exact ⟨h.1, h.2.1⟩

/-- C2: every attach/detach session validates the target through the debug
protocol itself: after discovery succeeds, the session asks the target to
report its own pid-namespace link (and, when that matches, its own
namespace-local pid); a mismatch of either fails the session with the
`WrongTargetProcess` condition before any payload-control command is issued
— in particular attach against a target whose pid-namespace link has
changed fails rather than reusing the endpoint. -/
theorem attach_validates_target_via_protocol
    (env : DebugEnv) (nspid : Int) (expectedLink modulePath : String) (url : Json)
    (hurl : (getDebuggerUrl env.responses).1 = .ok url) :
    (NodeEvent.evaluate nsReadlinkCommand ∈ (create_debugger_socket env nspid expectedLink).1) ∧
    (∀ v, executeJsResult env nsReadlinkCommand = .ok v →
      v.beq (Json.str expectedLink) = false →
      (generate_perf_map env modulePath nspid expectedLink).2
          = .error (.wrongTargetProcess "Wrong namespace") ∧
      (∀ e ∈ (generate_perf_map env modulePath nspid expectedLink).1, isDsoControl e = false) ∧
      (clean_up env modulePath nspid expectedLink).2
          = .error (.wrongTargetProcess "Wrong namespace") ∧
      (∀ e ∈ (clean_up env modulePath nspid expectedLink).1, isDsoControl e = false)) ∧
    (∀ v w, executeJsResult env nsReadlinkCommand = .ok v →
      v.beq (Json.str expectedLink) = true →
      executeJsResult env pidCommand = .ok w →
      w.beq (Json.num nspid) = false →
      NodeEvent.evaluate pidCommand ∈ (create_debugger_socket env nspid expectedLink).1 ∧
      (generate_perf_map env modulePath nspid expectedLink).2
          = .error (.wrongTargetProcess "Wrong pid") ∧
      (∀ e ∈ (generate_perf_map env modulePath nspid expectedLink).1, isDsoControl e = false)) := by
  rcases hgu : getDebuggerUrl env.responses with ⟨res, att, sl⟩
  rw [hgu] at hurl
  simp only at hurl
  subst hurl
  have hnsfree : isDsoControl (NodeEvent.evaluate nsReadlinkCommand) = false := by decide
  have hpidfree : isDsoControl (NodeEvent.evaluate pidCommand) = false := by decide
  have hdisc : ∀ e ∈ (List.range att).map NodeEvent.httpGet, isDsoControl e = false := by
    intro e he
    obtain ⟨i, -, rfl⟩ := List.mem_map.mp he
    rfl
  refine ⟨?_, ?_, ?_⟩
  · rcases hns : executeJsResult env nsReadlinkCommand with e | v
    · simp [create_debugger_socket, hgu, validateNsNode, executeJsCommand, hns]
    · by_cases hbeq : v.beq (Json.str expectedLink) = true
      · rcases hpid : executeJsResult env pidCommand with e2 | w
        · simp [create_debugger_socket, hgu, validateNsNode, validatePid,
            executeJsCommand, hns, hbeq, hpid]
        · by_cases hw : w.beq (Json.num nspid) = true <;>
            simp [create_debugger_socket, hgu, validateNsNode, validatePid,
              executeJsCommand, hns, hbeq, hpid, hw]
      · have hbeq2 : v.beq (Json.str expectedLink) = false := by
          simpa using hbeq
        simp [create_debugger_socket, hgu, validateNsNode, executeJsCommand, hns, hbeq2]
  · intro v hv hbeq
    have hsock : create_debugger_socket env nspid expectedLink
        = (((List.range att).map NodeEvent.httpGet)
            ++ [NodeEvent.connect url, NodeEvent.setTimeout 10]
            ++ [NodeEvent.evaluate nsReadlinkCommand],
           .error (.wrongTargetProcess "Wrong namespace")) := by
      simp [create_debugger_socket, hgu, validateNsNode, executeJsCommand, hv, hbeq]
    have htr : ∀ e ∈ (((List.range att).map NodeEvent.httpGet)
        ++ [NodeEvent.connect url, NodeEvent.setTimeout 10]
        ++ [NodeEvent.evaluate nsReadlinkCommand]), isDsoControl e = false := by
      intro e he
      simp at he
      rcases he with ⟨i, hi, rfl⟩ | rfl | rfl | rfl
      · rfl
      · rfl
      · rfl
      · exact hnsfree
    refine ⟨?_, ?_, ?_, ?_⟩
    · simp [generate_perf_map, hsock]
    · intro e he
      rw [generate_perf_map, hsock] at he
      exact htr e he
    · simp [clean_up, hsock]
    · intro e he
      rw [clean_up, hsock] at he
      exact htr e he
  · intro v w hv hbeq hw hwbeq
    have hsock : create_debugger_socket env nspid expectedLink
        = (((List.range att).map NodeEvent.httpGet)
            ++ [NodeEvent.connect url, NodeEvent.setTimeout 10]
            ++ [NodeEvent.evaluate nsReadlinkCommand]
            ++ [NodeEvent.evaluate pidCommand],
           .error (.wrongTargetProcess "Wrong pid")) := by
      simp [create_debugger_socket, hgu, validateNsNode, validatePid, executeJsCommand,
        hv, hbeq, hw, hwbeq]
    refine ⟨?_, ?_, ?_⟩
    · simp [hsock]
    · simp [generate_perf_map, hsock]
    · intro e he
      rw [generate_perf_map, hsock] at he
      simp at he
      rcases he with ⟨i, hi, rfl⟩ | rfl | rfl | rfl | rfl
      · rfl
      · rfl
      · rfl
      · exact hnsfree
      · exact hpidfree

/-- Witness for `attach_validates_target_via_protocol`: a target whose
pid-namespace link has changed (it reports `pid:[222]` where `pid:[111]` is
expected) makes attach fail with `WrongTargetProcess`. -/
theorem attach_validates_target_via_protocol_witness :
    let goodResp : HttpResponse :=
      ⟨200, "application/json", "",
       some (.arr [.obj [("webSocketDebuggerUrl", .str "ws:u")]])⟩
    let env : DebugEnv :=
      ⟨fun _ => goodResp,
       fun cmd =>
         if cmd = nsReadlinkCommand then
           some (.obj [("result", .obj [("result", .obj [("value", .str "pid:[222]")])])])
         else none⟩
    (generate_perf_map env "/tmp/mod" 5 "pid:[111]").2
      = .error (.wrongTargetProcess "Wrong namespace") := by
  intro goodResp env
  have h := attach_validates_target_via_protocol env 5 "pid:[111]" "/tmp/mod"
    (.str "ws:u") (by rfl)
  exact (h.2.1 (.str "pid:[222]") (by rfl) (by rfl)).1

/-- When every controller in the list has a live subprocess handle, the
rotation loop signals all of them, in order, and succeeds. -/
theorem rotateLoop_all_live (l : List (PerfKind × PerfProcess))
    (h : ∀ kp ∈ l, ∃ hd, kp.2.process = some hd) :
    rotateLoop l = (l.map Prod.fst, .ok ()) := by
  induction l with
  | nil => rfl
  | cons kp rest ih =>
      obtain ⟨hd, hhd⟩ := h kp (by simp)
      rcases kp with ⟨k, p⟩
      simp only at hhd
      simp [rotateLoop, PerfProcess.switch_output, hhd,
        ih (fun x hx => h x (by simp [hx]))]

/-- Every snapshot trace splits as the round wait and rotate signals
followed by collect steps and metadata lookups. -/
theorem snapshot_trace_split (s : SystemProfilerState) (env : SnapshotEnv) :
    ∃ (rk ck : List PerfKind) (mp : List Int), (SystemProfiler.snapshot s env).1
      = (SnapEvent.waitRound :: rk.map SnapEvent.rotate)
        ++ (ck.map SnapEvent.collect ++ mp.map SnapEvent.metadataLookup) := by
  unfold SystemProfiler.snapshot
  by_cases h : env.stopSet
  · exact ⟨[], [], [], by simp [h]⟩
  · rcases hr : rotateLoop s.taggedPerfs with ⟨rk, rstat⟩
    cases rstat with
    | error e => exact ⟨rk, [], [], by simp [h, hr]⟩
    | ok u =>
        rcases hc : snapshotCollect s env with ⟨ck, rest2⟩
        rcases rest2 with ⟨mp, res⟩
        exact ⟨rk, ck, mp, by simp [h, hr, hc]⟩

/-- In a trace of the split shape, every rotate position precedes every
collect position. -/
theorem rotates_before_collects_of_split (tr : List SnapEvent)
    (h : ∃ (rk ck : List PerfKind) (mp : List Int),
      tr = (SnapEvent.waitRound :: rk.map SnapEvent.rotate)
        ++ (ck.map SnapEvent.collect ++ mp.map SnapEvent.metadataLookup)) :
    ∀ i j (hi : i < tr.length) (hj : j < tr.length),
      (tr.get ⟨i, hi⟩).isRotate = true → (tr.get ⟨j, hj⟩).isCollect = true → i < j := by
  obtain ⟨rk, ck, mp, rfl⟩ := h
  intro i j hi hj hP hQ
  refine allP_before_allQ_append SnapEvent.isRotate SnapEvent.isCollect _ _
    ?_ ?_ i j hi hj hP hQ
  · intro e he
    rcases List.mem_cons.mp he with rfl | hm
    · rfl
    · obtain ⟨k, -, rfl⟩ := List.mem_map.mp hm
      rfl
  · intro e he
    rcases List.mem_append.mp he with hm | hm
    · obtain ⟨k, -, rfl⟩ := List.mem_map.mp hm
      rfl
    · obtain ⟨p, -, rfl⟩ := List.mem_map.mp hm
      rfl

/-- C1: in every sampling round, output rotation is requested on every live
controller before any controller is asked to collect its rotated output:
for every configuration (one or two controllers) that was started
successfully, the snapshot trace contains a rotate signal for each present
controller, and every rotate position precedes every collect position. -/
theorem snapshot_rotates_all_before_any_collect
    (freq dur : Nat) (dir : String) (mode : PerfMode) (sz : Nat) (inj na : Bool)
    (s s' : SystemProfilerState) (envFp envD : StartEnv) (env : SnapshotEnv)
    (_hinit : SystemProfiler.init freq dur dir mode sz inj na = .ok s)
    (hstart : SystemProfiler.start s envFp envD = .ok s')
    (hFp : envFp.outputAppears = true) (hD : envD.outputAppears = true)
    (hstop : env.stopSet = false) :
    ((s'.perfFp.isSome → SnapEvent.rotate .fp ∈ (SystemProfiler.snapshot s' env).1) ∧
     (s'.perfDwarf.isSome → SnapEvent.rotate .dwarf ∈ (SystemProfiler.snapshot s' env).1)) ∧
    (∀ i j (hi : i < (SystemProfiler.snapshot s' env).1.length)
        (hj : j < (SystemProfiler.snapshot s' env).1.length),
      ((SystemProfiler.snapshot s' env).1.get ⟨i, hi⟩).isRotate = true →
      ((SystemProfiler.snapshot s' env).1.get ⟨j, hj⟩).isCollect = true → i < j) := by
  have hlive : ∀ kp ∈ s'.taggedPerfs, ∃ hd, kp.2.process = some hd := by
    rcases hf : s.perfFp with _ | pf <;> rcases hd2 : s.perfDwarf with _ | pd <;>
      simp [SystemProfiler.start, hf, hd2, PerfProcess.start, hFp, hD] at hstart <;>
      rw [← hstart] <;> intro kp hkp <;>
      simp [SystemProfilerState.taggedPerfs] at hkp
    · rcases hkp with rfl
      exact ⟨envD.handle, rfl⟩
    · rcases hkp with rfl
      exact ⟨envFp.handle, rfl⟩
    · rcases hkp with rfl | rfl
      · exact ⟨envFp.handle, rfl⟩
      · exact ⟨envD.handle, rfl⟩
  have hrot := rotateLoop_all_live s'.taggedPerfs hlive
  rcases hc : snapshotCollect s' env with ⟨ck, rest2⟩
  rcases rest2 with ⟨mp, res⟩
  have htrace : (SystemProfiler.snapshot s' env).1
      = (SnapEvent.waitRound :: (s'.taggedPerfs.map Prod.fst).map SnapEvent.rotate)
        ++ (ck.map SnapEvent.collect ++ mp.map SnapEvent.metadataLookup) := by
    simp [SystemProfiler.snapshot, hstop, hrot, hc]
  refine ⟨⟨?_, ?_⟩, rotates_before_collects_of_split _ (snapshot_trace_split s' env)⟩
  · intro hfp
    rcases hf2 : s'.perfFp with _ | p
    · rw [hf2] at hfp; cases hfp
    · rw [htrace]
      simp [SystemProfilerState.taggedPerfs, hf2]
  · intro hdw
    rcases hd3 : s'.perfDwarf with _ | p
    · rw [hd3] at hdw; cases hdw
    · rw [htrace]
      simp [SystemProfilerState.taggedPerfs, hd3]

/-- Witness for `snapshot_rotates_all_before_any_collect` at the two-controller
(`smart`) configuration: both controllers receive a rotate signal. -/
theorem snapshot_rotates_all_before_any_collect_witness :
    let envFp : StartEnv := ⟨1, true, "", ""⟩
    let envD : StartEnv := ⟨2, true, "", ""⟩
    let env : SnapshotEnv := ⟨false, ⟨none, "", "", ""⟩, ⟨none, "", "", ""⟩,
      fun _ _ => [], ⟨fun _ => .ok (), fun _ _ => .ok false, fun _ _ => .ok ⟨[]⟩⟩⟩
    ∃ s s', SystemProfiler.init 11 60 "sd" .smart 8192 false false = .ok s ∧
      SystemProfiler.start s envFp envD = .ok s' ∧
      SnapEvent.rotate .fp ∈ (SystemProfiler.snapshot s' env).1 ∧
      SnapEvent.rotate .dwarf ∈ (SystemProfiler.snapshot s' env).1 := by
  intro envFp envD env
  refine ⟨_, _, rfl, rfl, ?_, ?_⟩
  · exact (snapshot_rotates_all_before_any_collect 11 60 "sd" .smart 8192 false false
      _ _ envFp envD env rfl rfl rfl rfl rfl).1.1 (by rfl)
  · exact (snapshot_rotates_all_before_any_collect 11 60 "sd" .smart 8192 false false
      _ _ envFp envD env rfl rfl rfl rfl rfl).1.2 (by rfl)

end GProfiler
